import Mathlib

/-!
Shallow embedding of `src/native/Clock.c`, a JNI shim exposing the Windows
high-resolution performance counter to managed code.  The file defines the two
native functions over an explicit model of one OS query outcome, then proves
the behavioural properties of the shim.
-/

namespace Clock

/-- Range predicate for a value of the C type `jlong`, a two-complement
64-bit signed integer. -/
def isInt64 (v : Int) : Prop := -(2 ^ 63) ≤ v ∧ v ≤ 2 ^ 63 - 1

instance (v : Int) : Decidable (isInt64 v) := by
  unfold isInt64; infer_instance

/-- Outcome of a single OS performance query (`QueryPerformanceCounter` or
`QueryPerformanceFrequency`).  Field `ok` is the `BOOL` the OS call returns;
field `written` is the 64-bit content of the `LARGE_INTEGER` output buffer
after the call returns.  When `ok` is `false`, `written` models whatever the
OS may have left in the buffer on failure. -/
structure OSQuery where
  ok : Bool
  written : Int
deriving DecidableEq, Repr

/-- Wellformedness of an OS query outcome: the OS writes a 64-bit value into
the `LARGE_INTEGER` buffer. -/
def OSQuery.wf (q : OSQuery) : Prop := isInt64 q.written

instance (q : OSQuery) : Decidable q.wf := by
  unfold OSQuery.wf; infer_instance

/-- Embedding of `Java_com_gurock_smartinspect_Clock_getCounter`: declare the
local `count`, let `QueryPerformanceCounter` fill it, overwrite it with `0`
when the OS call reports failure, and return it.  The `env` and `c` arguments
mirror the `JNIEnv*` and `jclass` parameters, which the body never reads. -/
def Java_com_gurock_smartinspect_Clock_getCounter
    {Env Cls : Type} (env : Env) (c : Cls) (q : OSQuery) : Int :=
  let count : Int := q.written
  let count := if !q.ok then 0 else count
  count

/-- Embedding of `Java_com_gurock_smartinspect_Clock_getFrequency`: declare
the local `frequency`, let `QueryPerformanceFrequency` fill it, overwrite it
with `0` when the OS call reports failure, and return it. -/
def Java_com_gurock_smartinspect_Clock_getFrequency
    {Env Cls : Type} (env : Env) (c : Cls) (q : OSQuery) : Int :=
  let frequency : Int := q.written
  let frequency := if !q.ok then 0 else frequency
  frequency

/-- Result channel of a JNI native call: either a normal return of a value,
or a pending Java exception raised through the `JNIEnv` interface. -/
inductive JNIOutcome (α : Type) where
  | normalReturn : α → JNIOutcome α
  | thrown : String → JNIOutcome α
deriving DecidableEq

/-- Call-level embedding of `getCounter`.  The body never invokes any
`JNIEnv` function, and C has no other way to raise a Java exception, so the
call always completes through the normal return path. -/
def getCounterCall {Env Cls : Type} (env : Env) (c : Cls) (q : OSQuery) :
    JNIOutcome Int :=
  JNIOutcome.normalReturn (Java_com_gurock_smartinspect_Clock_getCounter env c q)

/-- Call-level embedding of `getFrequency`, as `getCounterCall`. -/
def getFrequencyCall {Env Cls : Type} (env : Env) (c : Cls) (q : OSQuery) :
    JNIOutcome Int :=
  JNIOutcome.normalReturn (Java_com_gurock_smartinspect_Clock_getFrequency env c q)

/-- State-passing embedding of `getCounter` over an arbitrary type of
observable process state.  The C body writes only its local variable, so the
state threads through unchanged. -/
def getCounterRun {Env Cls State : Type} (env : Env) (c : Cls) (q : OSQuery)
    (s : State) : Int × State :=
  (Java_com_gurock_smartinspect_Clock_getCounter env c q, s)

/-- State-passing embedding of `getFrequency`, as `getCounterRun`. -/
def getFrequencyRun {Env Cls State : Type} (env : Env) (c : Cls) (q : OSQuery)
    (s : State) : Int × State :=
  (Java_com_gurock_smartinspect_Clock_getFrequency env c q, s)

/-- Values returned by the successful `getCounter` calls of a call sequence,
in call order. -/
def successfulReturns {Env Cls : Type} (env : Env) (c : Cls)
    (qs : List OSQuery) : List Int :=
  (qs.filter (fun q => q.ok)).map
    (Java_com_gurock_smartinspect_Clock_getCounter env c)

/-- Tag naming which of the two native functions a call invokes. -/
inductive ClockOp where
  | counter
  | frequency
deriving DecidableEq, Repr

/-- Dispatch of one call to the tagged native function. -/
def callClock {Env Cls : Type} (op : ClockOp) (env : Env) (c : Cls)
    (q : OSQuery) : Int :=
  match op with
  | ClockOp.counter => Java_com_gurock_smartinspect_Clock_getCounter env c q
  | ClockOp.frequency => Java_com_gurock_smartinspect_Clock_getFrequency env c q

/-- Execution of a pool of calls to either native function in a given
interleaving order, each call with its own operation tag, environment, class
argument and OS outcome, all threaded through one shared state. -/
def runAllOps {Env Cls State : Type}
    (calls : List (ClockOp × Env × Cls × OSQuery)) (s : State) :
    List Int × State :=
  match calls with
  | [] => ([], s)
  | t :: rest =>
    let r := match t.1 with
      | ClockOp.counter => getCounterRun t.2.1 t.2.2.1 t.2.2.2 s
      | ClockOp.frequency => getFrequencyRun t.2.1 t.2.2.1 t.2.2.2 s
    let rs := runAllOps rest r.2
    (r.1 :: rs.1, rs.2)

/-- Helper: when the OS call succeeds, `getCounter` returns the buffer
content unchanged. -/
theorem getCounter_eq_written_of_ok {Env Cls : Type} (env : Env) (c : Cls)
    (q : OSQuery) (h : q.ok = true) :
    Java_com_gurock_smartinspect_Clock_getCounter env c q = q.written := by
  unfold Java_com_gurock_smartinspect_Clock_getCounter
  simp [h]

/-- Helper: when the OS call fails, `getCounter` returns `0`. -/
theorem getCounter_eq_zero_of_fail {Env Cls : Type} (env : Env) (c : Cls)
    (q : OSQuery) (h : q.ok = false) :
    Java_com_gurock_smartinspect_Clock_getCounter env c q = 0 := by
  unfold Java_com_gurock_smartinspect_Clock_getCounter
  simp [h]

/-- Helper: when the OS call succeeds, `getFrequency` returns the buffer
content unchanged. -/
theorem getFrequency_eq_written_of_ok {Env Cls : Type} (env : Env) (c : Cls)
    (q : OSQuery) (h : q.ok = true) :
    Java_com_gurock_smartinspect_Clock_getFrequency env c q = q.written := by
  unfold Java_com_gurock_smartinspect_Clock_getFrequency
  simp [h]

/-- Helper: when the OS call fails, `getFrequency` returns `0`. -/
theorem getFrequency_eq_zero_of_fail {Env Cls : Type} (env : Env) (c : Cls)
    (q : OSQuery) (h : q.ok = false) :
    Java_com_gurock_smartinspect_Clock_getFrequency env c q = 0 := by
  unfold Java_com_gurock_smartinspect_Clock_getFrequency
  simp [h]

/-- Claim C1: when the OS counter query succeeds, `getCounter` returns
exactly the raw 64-bit counter value the OS wrote; when it fails,
`getCounter` returns `0`, discarding whatever the OS left in the buffer. -/
theorem getCounter_success_and_failure {Env Cls : Type} (env : Env) (c : Cls)
    (q : OSQuery) :
    (q.ok = true →
      Java_com_gurock_smartinspect_Clock_getCounter env c q = q.written) ∧
    (q.ok = false →
      Java_com_gurock_smartinspect_Clock_getCounter env c q = 0) :=
  ⟨getCounter_eq_written_of_ok env c q, getCounter_eq_zero_of_fail env c q⟩

/-- Witness for C1 at concrete inputs: a successful query with value 7 and a
failed query whose buffer holds garbage 99. -/
theorem getCounter_success_and_failure_witness :
    Java_com_gurock_smartinspect_Clock_getCounter () () ⟨true, 7⟩ = 7 ∧
    Java_com_gurock_smartinspect_Clock_getCounter () () ⟨false, 99⟩ = 0 :=
  ⟨(getCounter_success_and_failure () () ⟨true, 7⟩).1 rfl,
   (getCounter_success_and_failure () () ⟨false, 99⟩).2 rfl⟩

/-- Claim C2: when the OS frequency query succeeds, `getFrequency` returns
exactly the ticks-per-second value the OS wrote; when it fails,
`getFrequency` returns `0`. -/
theorem getFrequency_success_and_failure {Env Cls : Type} (env : Env) (c : Cls)
    (q : OSQuery) :
    (q.ok = true →
      Java_com_gurock_smartinspect_Clock_getFrequency env c q = q.written) ∧
    (q.ok = false →
      Java_com_gurock_smartinspect_Clock_getFrequency env c q = 0) :=
  ⟨getFrequency_eq_written_of_ok env c q, getFrequency_eq_zero_of_fail env c q⟩

/-- Witness for C2 at concrete inputs: a successful query reporting ten
million ticks per second and a failed query with garbage in the buffer. -/
theorem getFrequency_success_and_failure_witness :
    Java_com_gurock_smartinspect_Clock_getFrequency () () ⟨true, 10000000⟩ = 10000000 ∧
    Java_com_gurock_smartinspect_Clock_getFrequency () () ⟨false, 42⟩ = 0 :=
  ⟨(getFrequency_success_and_failure () () ⟨true, 10000000⟩).1 rfl,
   (getFrequency_success_and_failure () () ⟨false, 42⟩).2 rfl⟩

/-- Claim C3: for every outcome of the underlying OS call, both functions
complete by a normal return carrying a 64-bit integer, never by a raised
exception, and a platform failure is observable only as the returned
sentinel `0`. -/
theorem clock_never_throws {Env Cls : Type} (env : Env) (c : Cls)
    (q : OSQuery) (hwf : q.wf) :
    (∃ v : Int, getCounterCall env c q = JNIOutcome.normalReturn v ∧
      isInt64 v ∧ (q.ok = false → v = 0)) ∧
    (∃ v : Int, getFrequencyCall env c q = JNIOutcome.normalReturn v ∧
      isInt64 v ∧ (q.ok = false → v = 0)) := by
  obtain ⟨qok, qw⟩ := q
  cases qok
  case false =>
    exact ⟨⟨0, rfl, by decide, fun _ => rfl⟩, ⟨0, rfl, by decide, fun _ => rfl⟩⟩
  case true =>
    exact ⟨⟨qw, rfl, hwf, fun h => Bool.noConfusion h⟩,
           ⟨qw, rfl, hwf, fun h => Bool.noConfusion h⟩⟩

/-- Witness for C3 on a failed query whose buffer holds garbage. -/
theorem clock_never_throws_witness :
    OSQuery.wf ⟨false, 55⟩ ∧
    ((∃ v : Int, getCounterCall () () ⟨false, 55⟩ = JNIOutcome.normalReturn v ∧
        isInt64 v ∧ ((false : Bool) = false → v = 0)) ∧
     (∃ v : Int, getFrequencyCall () () ⟨false, 55⟩ = JNIOutcome.normalReturn v ∧
        isInt64 v ∧ ((false : Bool) = false → v = 0))) :=
  ⟨by decide, clock_never_throws () () ⟨false, 55⟩ (by decide)⟩

/-- Claim C4: over any sequence of `getCounter` calls, if the OS monotonic
counter is non-decreasing across the successful queries, then the values the
shim returns for those successful calls are non-decreasing in call order;
only the failure sentinel `0` can break the order. -/
theorem getCounter_monotone_on_success {Env Cls : Type} (env : Env) (c : Cls)
    (qs : List OSQuery)
    (hmono : List.Chain' (· ≤ ·)
      ((qs.filter (fun q => q.ok)).map OSQuery.written)) :
    List.Chain' (· ≤ ·) (successfulReturns env c qs) := by
  have hEq : successfulReturns env c qs
      = (qs.filter (fun q => q.ok)).map OSQuery.written := by
    unfold successfulReturns
    apply List.map_congr_left
    intro q hq
    have hok : q.ok = true := by
      simpa using (List.mem_filter.mp hq).2
    exact getCounter_eq_written_of_ok env c q hok
  rw [hEq]
  exact hmono

/-- Witness for C4 on a concrete three-call trace: two successful reads
around one failed read. -/
theorem getCounter_monotone_on_success_witness :
    List.Chain' (· ≤ ·)
      ((([⟨true, 1⟩, ⟨false, 999⟩, ⟨true, 5⟩] : List OSQuery).filter
        (fun q => q.ok)).map OSQuery.written) ∧
    List.Chain' (· ≤ ·)
      (successfulReturns () () [⟨true, 1⟩, ⟨false, 999⟩, ⟨true, 5⟩]) :=
  ⟨by
     show List.Chain' (· ≤ ·) ([1, 5] : List Int)
     simp [List.chain'_cons, List.chain'_singleton],
   getCounter_monotone_on_success () () [⟨true, 1⟩, ⟨false, 999⟩, ⟨true, 5⟩]
     (by
       show List.Chain' (· ≤ ·) ([1, 5] : List Int)
       simp [List.chain'_cons, List.chain'_singleton])⟩

/-- Claim C5: two `getFrequency` calls whose OS queries both succeed with the
same underlying frequency return the same value, whatever their environment
and class arguments: the read is idempotent and stable. -/
theorem getFrequency_stable {Env Cls : Type} (e1 e2 : Env) (c1 c2 : Cls)
    (q1 q2 : OSQuery) (h1 : q1.ok = true) (h2 : q2.ok = true)
    (hsame : q1.written = q2.written) :
    Java_com_gurock_smartinspect_Clock_getFrequency e1 c1 q1
      = Java_com_gurock_smartinspect_Clock_getFrequency e2 c2 q2 := by
  rw [getFrequency_eq_written_of_ok e1 c1 q1 h1,
      getFrequency_eq_written_of_ok e2 c2 q2 h2, hsame]

/-- Witness for C5: two healthy queries both reporting ten million ticks per
second. -/
theorem getFrequency_stable_witness :
    (OSQuery.ok ⟨true, 10000000⟩ = true) ∧
    Java_com_gurock_smartinspect_Clock_getFrequency () () ⟨true, 10000000⟩
      = Java_com_gurock_smartinspect_Clock_getFrequency (0 : Nat) (1 : Nat)
          ⟨true, 10000000⟩ :=
  ⟨rfl, getFrequency_stable () (0 : Nat) () (1 : Nat)
    ⟨true, 10000000⟩ ⟨true, 10000000⟩ rfl rfl rfl⟩

/-- Claim C6: neither function mutates process state or caches anything: the
state after a call equals the state before it, and a call behaves the same
whether or not an earlier call preceded it. -/
theorem clock_no_side_effects {Env Cls State : Type} (env : Env) (c : Cls)
    (q1 q2 : OSQuery) (s : State) :
    (getCounterRun env c q1 s).2 = s ∧
    (getFrequencyRun env c q1 s).2 = s ∧
    getCounterRun env c q2 ((getCounterRun env c q1 s).2)
      = getCounterRun env c q2 s ∧
    getFrequencyRun env c q2 ((getFrequencyRun env c q1 s).2)
      = getFrequencyRun env c q2 s :=
  ⟨rfl, rfl, rfl, rfl⟩

/-- Claim C7: a failed platform query and a successful query that really
yields zero are observationally equal at the public interface: both make
`getFrequency` (and likewise `getCounter`) return the identical value `0`. -/
theorem zero_conflates_failure_and_success :
    ∃ qFail qZero : OSQuery,
      qFail.ok = false ∧ qZero.ok = true ∧ qZero.written = 0 ∧
      Java_com_gurock_smartinspect_Clock_getFrequency () () qFail
        = Java_com_gurock_smartinspect_Clock_getFrequency () () qZero ∧
      Java_com_gurock_smartinspect_Clock_getCounter () () qFail
        = Java_com_gurock_smartinspect_Clock_getCounter () () qZero ∧
      Java_com_gurock_smartinspect_Clock_getFrequency () () qFail = 0 :=
  ⟨⟨false, 123⟩, ⟨true, 0⟩, rfl, rfl, rfl, rfl, rfl, rfl⟩

/-- Claim C8: every value either function returns lies in the range of a
two-complement 64-bit signed integer, and on success the 64-bit value the OS
wrote is returned without truncation. -/
theorem clock_returns_int64 {Env Cls : Type} (env : Env) (c : Cls)
    (q : OSQuery) (hwf : q.wf) :
    isInt64 (Java_com_gurock_smartinspect_Clock_getCounter env c q) ∧
    isInt64 (Java_com_gurock_smartinspect_Clock_getFrequency env c q) ∧
    (q.ok = true →
      Java_com_gurock_smartinspect_Clock_getCounter env c q = q.written ∧
      Java_com_gurock_smartinspect_Clock_getFrequency env c q = q.written) := by
  unfold OSQuery.wf at hwf
  refine ⟨?_, ?_, fun h =>
    ⟨getCounter_eq_written_of_ok env c q h,
     getFrequency_eq_written_of_ok env c q h⟩⟩
  · cases h : q.ok
    · rw [getCounter_eq_zero_of_fail env c q h]; decide
    · rw [getCounter_eq_written_of_ok env c q h]; exact hwf
  · cases h : q.ok
    · rw [getFrequency_eq_zero_of_fail env c q h]; decide
    · rw [getFrequency_eq_written_of_ok env c q h]; exact hwf

/-- Witness for C8 on a successful query carrying the largest 64-bit value. -/
theorem clock_returns_int64_witness :
    OSQuery.wf ⟨true, 9223372036854775807⟩ ∧
    (isInt64 (Java_com_gurock_smartinspect_Clock_getCounter () ()
        ⟨true, 9223372036854775807⟩) ∧
     isInt64 (Java_com_gurock_smartinspect_Clock_getFrequency () ()
        ⟨true, 9223372036854775807⟩) ∧
     (OSQuery.ok ⟨true, 9223372036854775807⟩ = true →
       Java_com_gurock_smartinspect_Clock_getCounter () ()
           ⟨true, 9223372036854775807⟩ = 9223372036854775807 ∧
       Java_com_gurock_smartinspect_Clock_getFrequency () ()
           ⟨true, 9223372036854775807⟩ = 9223372036854775807)) :=
  ⟨by decide, clock_returns_int64 () () ⟨true, 9223372036854775807⟩ (by decide)⟩

/-- Helper: one call to either native function yields a wellformed 64-bit
value that is the raw OS reading or the sentinel `0`. -/
theorem callClock_sound {Env Cls : Type} (op : ClockOp) (env : Env) (c : Cls)
    (q : OSQuery) (hq : q.wf) :
    isInt64 (callClock op env c q) ∧
    (callClock op env c q = q.written ∨ callClock op env c q = 0) := by
  unfold OSQuery.wf at hq
  cases op
  case counter =>
    show isInt64 (Java_com_gurock_smartinspect_Clock_getCounter env c q) ∧
      (Java_com_gurock_smartinspect_Clock_getCounter env c q = q.written ∨
       Java_com_gurock_smartinspect_Clock_getCounter env c q = 0)
    cases h : q.ok
    · exact ⟨by rw [getCounter_eq_zero_of_fail env c q h]; decide,
             Or.inr (getCounter_eq_zero_of_fail env c q h)⟩
    · exact ⟨by rw [getCounter_eq_written_of_ok env c q h]; exact hq,
             Or.inl (getCounter_eq_written_of_ok env c q h)⟩
  case frequency =>
    show isInt64 (Java_com_gurock_smartinspect_Clock_getFrequency env c q) ∧
      (Java_com_gurock_smartinspect_Clock_getFrequency env c q = q.written ∨
       Java_com_gurock_smartinspect_Clock_getFrequency env c q = 0)
    cases h : q.ok
    · exact ⟨by rw [getFrequency_eq_zero_of_fail env c q h]; decide,
             Or.inr (getFrequency_eq_zero_of_fail env c q h)⟩
    · exact ⟨by rw [getFrequency_eq_written_of_ok env c q h]; exact hq,
             Or.inl (getFrequency_eq_written_of_ok env c q h)⟩

/-- Claim C9: a pool mixing `getCounter` and `getFrequency` calls, threaded
through one shared state in any interleaving order, shares no mutable state:
the shared state comes back untouched, every call produces exactly the pure
value of its own OS query independent of the other calls, and each produced
value is a wellformed 64-bit reading or the sentinel `0`, never a corrupted
or partial read. -/
theorem clock_reentrant {Env Cls State : Type}
    (calls : List (ClockOp × Env × Cls × OSQuery)) (s : State)
    (hwf : ∀ t ∈ calls, OSQuery.wf t.2.2.2) :
    (runAllOps calls s).2 = s ∧
    (runAllOps calls s).1 = calls.map
      (fun t => callClock t.1 t.2.1 t.2.2.1 t.2.2.2) ∧
    ∀ t ∈ calls,
      isInt64 (callClock t.1 t.2.1 t.2.2.1 t.2.2.2) ∧
      (callClock t.1 t.2.1 t.2.2.1 t.2.2.2 = t.2.2.2.written ∨
       callClock t.1 t.2.1 t.2.2.1 t.2.2.2 = 0) := by
  induction calls generalizing s with
  | nil => exact ⟨rfl, rfl, by intro t ht; cases ht⟩
  | cons t rest ih =>
    obtain ⟨hstate, hvals, helem⟩ :=
      ih s (fun u hu => hwf u (List.mem_cons_of_mem t hu))
    obtain ⟨op, e, c, q⟩ := t
    refine ⟨?_, ?_, ?_⟩
    · cases op <;>
        simpa [runAllOps, getCounterRun, getFrequencyRun] using hstate
    · cases op <;>
        simpa [runAllOps, getCounterRun, getFrequencyRun, callClock]
          using hvals
    · intro u hu
      rcases List.mem_cons.mp hu with hEq | hMem
      · subst hEq
        exact callClock_sound op e c q
          (hwf (op, e, c, q) (List.mem_cons_self (op, e, c, q) rest))
      · exact helem u hMem

/-- Witness for C9: a mixed pool of one successful counter call and one
failed frequency call over a shared natural-number state. -/
theorem clock_reentrant_witness :
    (∀ t ∈ ([(ClockOp.counter, (), (), ⟨true, 11⟩),
             (ClockOp.frequency, (), (), ⟨false, 77⟩)] :
        List (ClockOp × Unit × Unit × OSQuery)), OSQuery.wf t.2.2.2) ∧
    ((runAllOps ([(ClockOp.counter, (), (), ⟨true, 11⟩),
                  (ClockOp.frequency, (), (), ⟨false, 77⟩)] :
        List (ClockOp × Unit × Unit × OSQuery)) (42 : Nat)).2 = 42 ∧
     (runAllOps ([(ClockOp.counter, (), (), ⟨true, 11⟩),
                  (ClockOp.frequency, (), (), ⟨false, 77⟩)] :
        List (ClockOp × Unit × Unit × OSQuery)) (42 : Nat)).1
       = ([(ClockOp.counter, (), (), ⟨true, 11⟩),
           (ClockOp.frequency, (), (), ⟨false, 77⟩)] :
           List (ClockOp × Unit × Unit × OSQuery)).map
           (fun t => callClock t.1 t.2.1 t.2.2.1 t.2.2.2) ∧
     ∀ t ∈ ([(ClockOp.counter, (), (), ⟨true, 11⟩),
             (ClockOp.frequency, (), (), ⟨false, 77⟩)] :
         List (ClockOp × Unit × Unit × OSQuery)),
       isInt64 (callClock t.1 t.2.1 t.2.2.1 t.2.2.2) ∧
       (callClock t.1 t.2.1 t.2.2.1 t.2.2.2 = t.2.2.2.written ∨
        callClock t.1 t.2.1 t.2.2.1 t.2.2.2 = 0)) :=
  ⟨by decide,
   clock_reentrant [(ClockOp.counter, (), (), ⟨true, 11⟩),
                    (ClockOp.frequency, (), (), ⟨false, 77⟩)]
     (42 : Nat) (by decide)⟩

/-- Claim C10: the return values of both functions are independent of the
`JNIEnv` and `jclass` arguments: two invocations with different environment
or class arguments but the same OS-call outcome return equal values. -/
theorem clock_independent_of_env {Env Cls : Type} (e1 e2 : Env) (c1 c2 : Cls)
    (q : OSQuery) :
    Java_com_gurock_smartinspect_Clock_getCounter e1 c1 q
      = Java_com_gurock_smartinspect_Clock_getCounter e2 c2 q ∧
    Java_com_gurock_smartinspect_Clock_getFrequency e1 c1 q
      = Java_com_gurock_smartinspect_Clock_getFrequency e2 c2 q :=
  ⟨rfl, rfl⟩

end Clock
